import Mathlib

/-!
Shallow embedding of `src/raw/layer.rs` (the layer / layered-accessor /
bridge mechanism of the opendal storage abstraction) and of the parts of
the surrounding crate that the file uses through its public interfaces.

Conventions of the embedding:
* Rust `async fn` and blocking `fn` methods both become pure Lean
  functions; the async/blocking distinction is kept structurally (two
  separate methods per operation where the source has two, and an
  `isAsync` table translated from which methods carry `async`).
* Backend state is passed explicitly: a method that may observe or
  change backend state has type `… → σ → Except Error (Result × σ)`.
* Rust `Result<T>` becomes `Except Error T`.
* Associated resource-handle types become explicit type parameters,
  bundled in a `Handles` record.
-/

namespace Opendal

/-- Paths are plain strings, as in the source (`path: &str`). -/
def Path := String

instance : DecidableEq Path := inferInstanceAs (DecidableEq String)

/-- Modelled from the spec: the error taxonomy of §7 (the error type lives
outside the given sources). Kinds: NotFound, AlreadyExists,
PermissionDenied, Unsupported, InvalidInput, Interrupted, Unexpected,
PartialFailure. -/
inductive ErrorKind where
  | NotFound
  | AlreadyExists
  | PermissionDenied
  | Unsupported
  | InvalidInput
  | Interrupted
  | Unexpected
  | PartialFailure
deriving DecidableEq, Repr

/-- Modelled from the spec: an error value is a kind together with a
message; "preserve the exact error value" is equality of this record. -/
structure Error where
  kind : ErrorKind
  message : String
deriving DecidableEq, Repr

/-- Modelled from the spec: operation argument structs are pure data
(§3 "Operation argument/response pairs"); each is opaque to the layering
mechanism, so we model each as a record with an abstract payload. -/
structure OpCreate where
  data : Nat := 0
deriving DecidableEq, Repr

/-- Modelled from the spec: read arguments, pure data. -/
structure OpRead where
  data : Nat := 0
deriving DecidableEq, Repr

/-- Modelled from the spec: write arguments, pure data. -/
structure OpWrite where
  data : Nat := 0
deriving DecidableEq, Repr

/-- Modelled from the spec: stat arguments, pure data. -/
structure OpStat where
  data : Nat := 0
deriving DecidableEq, Repr

/-- Modelled from the spec: delete arguments, pure data. -/
structure OpDelete where
  data : Nat := 0
deriving DecidableEq, Repr

/-- Modelled from the spec: list arguments, pure data. -/
structure OpList where
  data : Nat := 0
deriving DecidableEq, Repr

/-- Modelled from the spec: scan arguments, pure data. -/
structure OpScan where
  data : Nat := 0
deriving DecidableEq, Repr

/-- Modelled from the spec: batch arguments (multiple sub-operations),
pure data. -/
structure OpBatch where
  data : Nat := 0
deriving DecidableEq, Repr

/-- Modelled from the spec: presign arguments, pure data. -/
structure OpPresign where
  data : Nat := 0
deriving DecidableEq, Repr

/-- Modelled from the spec: create result, pure data. -/
structure RpCreate where
  data : Nat := 0
deriving DecidableEq, Repr

/-- Modelled from the spec: read result (alongside the reader handle),
pure data. -/
structure RpRead where
  data : Nat := 0
deriving DecidableEq, Repr

/-- Modelled from the spec: write result (alongside the writer handle),
pure data. -/
structure RpWrite where
  data : Nat := 0
deriving DecidableEq, Repr

/-- Modelled from the spec: stat result, pure data. -/
structure RpStat where
  data : Nat := 0
deriving DecidableEq, Repr

/-- Modelled from the spec: delete result, pure data; `RpDelete::default()`
is used by the bundled test. -/
structure RpDelete where
  data : Nat := 0
deriving DecidableEq, Repr

/-- The default delete result, as `RpDelete::default()` in the test. -/
def RpDelete.default : RpDelete := {}

/-- Modelled from the spec: list result, pure data. -/
structure RpList where
  data : Nat := 0
deriving DecidableEq, Repr

/-- Modelled from the spec: scan result, pure data. -/
structure RpScan where
  data : Nat := 0
deriving DecidableEq, Repr

/-- Modelled from the spec: batch result with per-item outcomes, pure
data. -/
structure RpBatch where
  data : Nat := 0
deriving DecidableEq, Repr

/-- Modelled from the spec: the presign result carries a URL plus an
expiry ("presign-result (URL + expiry)"). -/
structure RpPresign where
  url : String
  expiry : Nat
deriving DecidableEq, Repr

/-- Scheme of a backend or layer; the bundled test uses
`Scheme::Custom("test")`, and the in-memory service uses its own scheme. -/
inductive Scheme where
  | memory
  | custom (s : String)
deriving DecidableEq, Repr

/-- Modelled from the spec: AccessorInfo is an immutable descriptive
snapshot (identifying scheme plus capability flags), a pure value type
(§3). `AccessorInfo::default()` and `set_scheme` are used by the test. -/
structure AccessorInfo where
  scheme : Scheme := .memory
  capabilities : Nat := 0
deriving DecidableEq, Repr

/-- The default AccessorInfo, as `AccessorInfo::default()` in the test. -/
def AccessorInfo.default : AccessorInfo := {}

/-- Set the scheme, as `AccessorInfo::set_scheme` in the test. -/
def AccessorInfo.set_scheme (am : AccessorInfo) (s : Scheme) : AccessorInfo :=
  { am with scheme := s }

/-- The six associated resource-handle types an accessor declares
(`type Reader`, `type BlockingReader`, `type Writer`,
`type BlockingWriter`, `type Pager`, `type BlockingPager`), bundled. -/
structure Handles where
  Reader : Type
  BlockingReader : Type
  Writer : Type
  BlockingWriter : Type
  Pager : Type
  BlockingPager : Type

/-- Modelled from the spec: the Accessor capability interface (declared in
the crate's `raw::accessor` module, outside the given sources; its shape
is fixed by §4.1 and by every use in `layer.rs`). One method per
operation, async and blocking forms separate; methods the implementor
does not supply default to an `Unsupported` error, per §7's taxonomy
("Unsupported (operation not implemented by this backend/layer)") and per
the bundled test, which implements only `info` and `delete`. Backend
state `σ` is passed explicitly. -/
structure Accessor (σ : Type) (h : Handles) where
  info : AccessorInfo
  create : Path → OpCreate → σ → Except Error (RpCreate × σ) :=
    fun _ _ _ => .error ⟨.Unsupported, "create"⟩
  read : Path → OpRead → σ → Except Error ((RpRead × h.Reader) × σ) :=
    fun _ _ _ => .error ⟨.Unsupported, "read"⟩
  write : Path → OpWrite → σ → Except Error ((RpWrite × h.Writer) × σ) :=
    fun _ _ _ => .error ⟨.Unsupported, "write"⟩
  stat : Path → OpStat → σ → Except Error (RpStat × σ) :=
    fun _ _ _ => .error ⟨.Unsupported, "stat"⟩
  delete : Path → OpDelete → σ → Except Error (RpDelete × σ) :=
    fun _ _ _ => .error ⟨.Unsupported, "delete"⟩
  list : Path → OpList → σ → Except Error ((RpList × h.Pager) × σ) :=
    fun _ _ _ => .error ⟨.Unsupported, "list"⟩
  scan : Path → OpScan → σ → Except Error ((RpScan × h.Pager) × σ) :=
    fun _ _ _ => .error ⟨.Unsupported, "scan"⟩
  batch : OpBatch → σ → Except Error (RpBatch × σ) :=
    fun _ _ => .error ⟨.Unsupported, "batch"⟩
  presign : Path → OpPresign → σ → Except Error (RpPresign × σ) :=
    fun _ _ _ => .error ⟨.Unsupported, "presign"⟩
  blocking_create : Path → OpCreate → σ → Except Error (RpCreate × σ) :=
    fun _ _ _ => .error ⟨.Unsupported, "blocking_create"⟩
  blocking_read : Path → OpRead → σ → Except Error ((RpRead × h.BlockingReader) × σ) :=
    fun _ _ _ => .error ⟨.Unsupported, "blocking_read"⟩
  blocking_write : Path → OpWrite → σ → Except Error ((RpWrite × h.BlockingWriter) × σ) :=
    fun _ _ _ => .error ⟨.Unsupported, "blocking_write"⟩
  blocking_stat : Path → OpStat → σ → Except Error (RpStat × σ) :=
    fun _ _ _ => .error ⟨.Unsupported, "blocking_stat"⟩
  blocking_delete : Path → OpDelete → σ → Except Error (RpDelete × σ) :=
    fun _ _ _ => .error ⟨.Unsupported, "blocking_delete"⟩
  blocking_list : Path → OpList → σ → Except Error ((RpList × h.BlockingPager) × σ) :=
    fun _ _ _ => .error ⟨.Unsupported, "blocking_list"⟩
  blocking_scan : Path → OpScan → σ → Except Error ((RpScan × h.BlockingPager) × σ) :=
    fun _ _ _ => .error ⟨.Unsupported, "blocking_scan"⟩

/-- The `LayeredAccessor` trait, `src/raw/layer.rs` lines 136–198.
Associated types `Inner` (an accessor with its own handle bundle `ih`)
and the six own handle types (`h`). The eight resource-returning methods
`read`, `write`, `list`, `scan` and their blocking forms have NO default
(they are mandatory fields); every other method defaults to a pure
forward to `inner`, exactly as in the source. -/
structure LayeredAccessor (σ : Type) (ih h : Handles) where
  inner : Accessor σ ih
  read : Path → OpRead → σ → Except Error ((RpRead × h.Reader) × σ)
  write : Path → OpWrite → σ → Except Error ((RpWrite × h.Writer) × σ)
  list : Path → OpList → σ → Except Error ((RpList × h.Pager) × σ)
  scan : Path → OpScan → σ → Except Error ((RpScan × h.Pager) × σ)
  blocking_read : Path → OpRead → σ → Except Error ((RpRead × h.BlockingReader) × σ)
  blocking_write : Path → OpWrite → σ → Except Error ((RpWrite × h.BlockingWriter) × σ)
  blocking_list : Path → OpList → σ → Except Error ((RpList × h.BlockingPager) × σ)
  blocking_scan : Path → OpScan → σ → Except Error ((RpScan × h.BlockingPager) × σ)
  metadata : AccessorInfo := inner.info
  create : Path → OpCreate → σ → Except Error (RpCreate × σ) :=
    fun path args s => inner.create path args s
  stat : Path → OpStat → σ → Except Error (RpStat × σ) :=
    fun path args s => inner.stat path args s
  delete : Path → OpDelete → σ → Except Error (RpDelete × σ) :=
    fun path args s => inner.delete path args s
  batch : OpBatch → σ → Except Error (RpBatch × σ) :=
    fun args s => inner.batch args s
  presign : Path → OpPresign → σ → Except Error (RpPresign × σ) :=
    fun path args s => inner.presign path args s
  blocking_create : Path → OpCreate → σ → Except Error (RpCreate × σ) :=
    fun path args s => inner.blocking_create path args s
  blocking_stat : Path → OpStat → σ → Except Error (RpStat × σ) :=
    fun path args s => inner.blocking_stat path args s
  blocking_delete : Path → OpDelete → σ → Except Error (RpDelete × σ) :=
    fun path args s => inner.blocking_delete path args s

/-- The bridge (blanket rule), `src/raw/layer.rs` lines 200–276:
`impl<L: LayeredAccessor> Accessor for L`. The six resource-handle types
are taken unchanged (`type Reader = L::Reader`, …: here the whole bundle
`h` is passed through), `info` routes to `metadata`, and every other
Accessor method routes to the LayeredAccessor method of the same name. -/
def LayeredAccessor.toAccessor {σ : Type} {ih h : Handles}
    (L : LayeredAccessor σ ih h) : Accessor σ h where
  info := L.metadata
  create := fun path args s => L.create path args s
  read := fun path args s => L.read path args s
  write := fun path args s => L.write path args s
  stat := fun path args s => L.stat path args s
  delete := fun path args s => L.delete path args s
  list := fun path args s => L.list path args s
  scan := fun path args s => L.scan path args s
  batch := fun args s => L.batch args s
  presign := fun path args s => L.presign path args s
  blocking_create := fun path args s => L.blocking_create path args s
  blocking_read := fun path args s => L.blocking_read path args s
  blocking_write := fun path args s => L.blocking_write path args s
  blocking_stat := fun path args s => L.blocking_stat path args s
  blocking_delete := fun path args s => L.blocking_delete path args s
  blocking_list := fun path args s => L.blocking_list path args s
  blocking_scan := fun path args s => L.blocking_scan path args s

/-- The `Layer` trait, `src/raw/layer.rs` lines 124–130: a factory that
takes an inner accessor and produces a new (layered) accessor. -/
structure Layer (σ : Type) (ih oh : Handles) where
  layer : Accessor σ ih → Accessor σ oh

/-- Compose two layers into a single layer: the combined layer wraps with
`l1` first, then `l2` (so it is `l2 ∘ l1` on accessors). -/
def Layer.comp {σ : Type} {h1 h2 h3 : Handles}
    (l2 : Layer σ h2 h3) (l1 : Layer σ h1 h2) : Layer σ h1 h3 :=
  ⟨fun a => l2.layer (l1.layer a)⟩

/-- Build a `LayeredAccessor` by supplying only the inner accessor and
the eight mandatory resource-returning methods; every other method is
filled in by the trait's default bodies (pure forwards to `inner`).
This is exactly what a layer author writes when overriding nothing. -/
def LayeredAccessor.ofInner {σ : Type} {ih h : Handles} (A : Accessor σ ih)
    (r : Path → OpRead → σ → Except Error ((RpRead × h.Reader) × σ))
    (w : Path → OpWrite → σ → Except Error ((RpWrite × h.Writer) × σ))
    (l : Path → OpList → σ → Except Error ((RpList × h.Pager) × σ))
    (sc : Path → OpScan → σ → Except Error ((RpScan × h.Pager) × σ))
    (br : Path → OpRead → σ → Except Error ((RpRead × h.BlockingReader) × σ))
    (bw : Path → OpWrite → σ → Except Error ((RpWrite × h.BlockingWriter) × σ))
    (bl : Path → OpList → σ → Except Error ((RpList × h.BlockingPager) × σ))
    (bs : Path → OpScan → σ → Except Error ((RpScan × h.BlockingPager) × σ)) :
    LayeredAccessor σ ih h :=
  { inner := A, read := r, write := w, list := l, scan := sc,
    blocking_read := br, blocking_write := bw,
    blocking_list := bl, blocking_scan := bs }

/-- A layer whose wrapping type implements the `LayeredAccessor` trait
and overrides none of the defaulted operations: it supplies only the
eight mandatory methods (each may depend on the inner accessor) and
becomes an `Accessor` through the bridge. -/
def Layer.ofForward {σ : Type} {ih h : Handles}
    (r : Accessor σ ih → Path → OpRead → σ → Except Error ((RpRead × h.Reader) × σ))
    (w : Accessor σ ih → Path → OpWrite → σ → Except Error ((RpWrite × h.Writer) × σ))
    (l : Accessor σ ih → Path → OpList → σ → Except Error ((RpList × h.Pager) × σ))
    (sc : Accessor σ ih → Path → OpScan → σ → Except Error ((RpScan × h.Pager) × σ))
    (br : Accessor σ ih → Path → OpRead → σ → Except Error ((RpRead × h.BlockingReader) × σ))
    (bw : Accessor σ ih → Path → OpWrite → σ → Except Error ((RpWrite × h.BlockingWriter) × σ))
    (bl : Accessor σ ih → Path → OpList → σ → Except Error ((RpList × h.BlockingPager) × σ))
    (bs : Accessor σ ih → Path → OpScan → σ → Except Error ((RpScan × h.BlockingPager) × σ)) :
    Layer σ ih h :=
  ⟨fun a =>
    (LayeredAccessor.ofInner a (r a) (w a) (l a) (sc a)
      (br a) (bw a) (bl a) (bs a)).toAccessor⟩

/-- The methods of the `LayeredAccessor` trait (besides the `inner`
getter), in source order, lines 147–197. -/
inductive LayeredOp where
  | metadata
  | create
  | read
  | write
  | stat
  | delete
  | list
  | scan
  | batch
  | presign
  | blocking_create
  | blocking_read
  | blocking_write
  | blocking_stat
  | blocking_delete
  | blocking_list
  | blocking_scan
deriving DecidableEq, Repr

/-- Which `LayeredAccessor` methods carry a default body in the trait
(lines 147–197): `metadata`, `create`, `stat`, `delete`, `batch`,
`presign`, `blocking_create`, `blocking_stat`, `blocking_delete` do;
`read`, `write`, `list`, `scan` and their blocking forms are bare
signatures. -/
def LayeredOp.hasDefault : LayeredOp → Bool
  | .metadata => true
  | .create => true
  | .read => false
  | .write => false
  | .stat => true
  | .delete => true
  | .list => false
  | .scan => false
  | .batch => true
  | .presign => true
  | .blocking_create => true
  | .blocking_read => false
  | .blocking_write => false
  | .blocking_stat => true
  | .blocking_delete => true
  | .blocking_list => false
  | .blocking_scan => false

/-- Which `LayeredAccessor` methods are declared `async fn` in the trait
(lines 147–197): `create`, `read`, `write`, `stat`, `delete`, `list`,
`scan`, `batch` are; `metadata`, `presign` and every `blocking_*` method
are plain `fn`. -/
def LayeredOp.isAsync : LayeredOp → Bool
  | .metadata => false
  | .create => true
  | .read => true
  | .write => true
  | .stat => true
  | .delete => true
  | .list => true
  | .scan => true
  | .batch => true
  | .presign => false
  | .blocking_create => false
  | .blocking_read => false
  | .blocking_write => false
  | .blocking_stat => false
  | .blocking_delete => false
  | .blocking_list => false
  | .blocking_scan => false

/-- Which `LayeredAccessor` methods return `Result<RpPresign>`: only
`presign` (line 175); in particular there is no blocking presign method
in the trait. -/
def LayeredOp.returnsPresign : LayeredOp → Bool
  | .presign => true
  | _ => false

/-- The methods of the `Accessor` trait as used by the bridge impl,
lines 200–276, in source order. -/
inductive AccessorOp where
  | info
  | create
  | read
  | write
  | stat
  | delete
  | list
  | scan
  | batch
  | presign
  | blocking_create
  | blocking_read
  | blocking_write
  | blocking_stat
  | blocking_delete
  | blocking_list
  | blocking_scan
deriving DecidableEq, Repr

/-- Which `Accessor` methods the bridge implements as `async fn`
(lines 209–275): the same eight as in the layered trait; `info`,
`presign` and every `blocking_*` method are plain `fn`. -/
def AccessorOp.isAsync : AccessorOp → Bool
  | .info => false
  | .create => true
  | .read => true
  | .write => true
  | .stat => true
  | .delete => true
  | .list => true
  | .scan => true
  | .batch => true
  | .presign => false
  | .blocking_create => false
  | .blocking_read => false
  | .blocking_write => false
  | .blocking_stat => false
  | .blocking_delete => false
  | .blocking_list => false
  | .blocking_scan => false

/-- Which `Accessor` methods return `Result<RpPresign>`: only `presign`
(lines 245–247). -/
def AccessorOp.returnsPresign : AccessorOp → Bool
  | .presign => true
  | _ => false

/-- The six resource-handle kinds declared as associated types. -/
inductive HandleKind where
  | Reader
  | BlockingReader
  | Writer
  | BlockingWriter
  | Pager
  | BlockingPager
deriving DecidableEq, Repr

/-- The resource-handle kind occurring in each `Accessor` method's result
type, read off the signatures (lines 209–275): `read` yields a
`Self::Reader`, `write` a `Self::Writer`, `list` and `scan` a
`Self::Pager`, and the blocking forms the corresponding blocking kinds;
no other method returns a handle. -/
def AccessorOp.handleKind : AccessorOp → Option HandleKind
  | .read => some .Reader
  | .write => some .Writer
  | .list => some .Pager
  | .scan => some .Pager
  | .blocking_read => some .BlockingReader
  | .blocking_write => some .BlockingWriter
  | .blocking_list => some .BlockingPager
  | .blocking_scan => some .BlockingPager
  | _ => none

/-- Modelled from the spec: backend state of the in-memory service
(`services::Memory`, outside the given sources) — a finite map from
paths to contents, represented as an association list. -/
def MemState := List (Path × String)

/-- Look a path up in an in-memory state. -/
def memLookup (m : MemState) (p : Path) : Option String :=
  match m with
  | [] => none
  | (q, c) :: rest => if q = p then some c else memLookup rest p

/-- Remove a path from an in-memory state. -/
def memRemove (m : MemState) (p : Path) : MemState :=
  match m with
  | [] => []
  | (q, c) :: rest => if q = p then memRemove rest p else (q, c) :: memRemove rest p

/-- Insert or overwrite a path in an in-memory state. -/
def memInsert (m : MemState) (p : Path) (c : String) : MemState :=
  (p, c) :: memRemove m p

/-- Handle types of the in-memory backend: a reader is the content
string, a writer is trivial, a pager is the list of remaining entries. -/
def memoryHandles : Handles :=
  ⟨String, String, Unit, Unit, List Path, List Path⟩

/-- Modelled from the spec: the in-memory backend (`services::Memory`,
outside the given sources), behaving per the operation table of §4.1:
`stat`/`read` fail with NotFound when the path is absent, `delete` is
idempotent, `create`/`write` update the map; `batch` and `presign` are
left at the interface defaults (Unsupported). Blocking forms behave as
the async forms. -/
def Memory : Accessor MemState memoryHandles where
  info := { scheme := Scheme.memory }
  create := fun p _ m => .ok ({}, memInsert m p "")
  read := fun p _ m =>
    match memLookup m p with
    | some c => .ok (({}, c), m)
    | none => .error ⟨.NotFound, p⟩
  write := fun p _ m => .ok (({}, ()), memInsert m p "")
  stat := fun p _ m =>
    match memLookup m p with
    | some _ => .ok ({}, m)
    | none => .error ⟨.NotFound, p⟩
  delete := fun p _ m => .ok ({}, memRemove m p)
  list := fun _ _ m => .ok (({}, m.map (fun e => e.1)), m)
  scan := fun _ _ m => .ok (({}, m.map (fun e => e.1)), m)
  blocking_create := fun p _ m => .ok ({}, memInsert m p "")
  blocking_read := fun p _ m =>
    match memLookup m p with
    | some c => .ok (({}, c), m)
    | none => .error ⟨.NotFound, p⟩
  blocking_write := fun p _ m => .ok (({}, ()), memInsert m p "")
  blocking_stat := fun p _ m =>
    match memLookup m p with
    | some _ => .ok ({}, m)
    | none => .error ⟨.NotFound, p⟩
  blocking_delete := fun p _ m => .ok ({}, memRemove m p)
  blocking_list := fun _ _ m => .ok (({}, m.map (fun e => e.1)), m)
  blocking_scan := fun _ _ m => .ok (({}, m.map (fun e => e.1)), m)

/-- State of the world once the test layer is involved: the layer's
shared `deleted` flag (an `Arc<Mutex<bool>>` in the source, modelled as
an explicit state component) together with the inner backend's state. -/
structure TestState (σ : Type) where
  deleted : Bool
  innerState : σ
deriving DecidableEq, Repr

/-- The `Test` struct of the bundled test module, lines 287–292: an
optional inner accessor plus the shared `deleted` flag (the flag lives in
`TestState`, not here, since it is mutable shared state). -/
structure Test (σ : Type) (ih : Handles) where
  inner : Option (Accessor σ ih)

/-- Handle types of `Test`: all six are `()` (lines 307–312). -/
def unitHandles : Handles := ⟨Unit, Unit, Unit, Unit, Unit, Unit⟩

/-- The `Accessor` impl for `Test`, lines 305–329: only `info` and
`delete` are supplied. `info` returns a default `AccessorInfo` with
scheme `Custom("test")`. `delete` sets the shared `deleted` flag, asserts
that `inner` is present (the panic on a missing inner is modelled as an
Unexpected error), and returns `Ok(RpDelete::default())` without ever
invoking the inner accessor — so the inner backend state component is
left untouched. All other operations fall back to the `Accessor`
interface defaults. -/
def Test.accessor {σ : Type} {ih : Handles} (t : Test σ ih) :
    Accessor (TestState σ) unitHandles where
  info := AccessorInfo.default.set_scheme (Scheme.custom "test")
  delete := fun _ _ s =>
    if t.inner.isSome then
      .ok (RpDelete.default, { s with deleted := true })
    else
      .error ⟨.Unexpected, "assert failed: self.inner.is_some()"⟩

/-- The `Layer` impl for `&Test`, lines 294–303: wrapping an inner
accessor produces a new `Test` whose `inner` is `Some(inner)` and whose
`deleted` flag is the SAME shared flag as the original's
(`self.deleted.clone()`); in the explicit-state embedding that sharing is
the common `deleted` component of `TestState`. -/
def Test.layer {σ : Type} {ih : Handles} (_t : Test σ ih)
    (innerA : Accessor σ ih) : Test σ ih :=
  { inner := some innerA }

/-- The `TraceAccessor` of the documentation example (lines 51–109): a
layered accessor over `inner` whose eight mandatory methods are one-line
forwards and which overrides nothing else, keeping the inner handle
types. -/
def TraceAccessor {σ : Type} {ih : Handles} (a : Accessor σ ih) :
    LayeredAccessor σ ih ih :=
  LayeredAccessor.ofInner a a.read a.write a.list a.scan
    a.blocking_read a.blocking_write a.blocking_list a.blocking_scan

/-- The `TraceLayer` of the documentation example (lines 114–122): wraps
an inner accessor in a `TraceAccessor`, used as an `Accessor` through the
bridge. -/
def TraceLayer (σ : Type) (ih : Handles) : Layer σ ih ih :=
  ⟨fun a => (TraceAccessor a).toAccessor⟩

/-- Invoke `info` on an accessor: the method takes `&self` and no state
(lines 209–211), so threading backend state through such a call leaves
the state untouched. -/
def callInfo {σ : Type} {h : Handles} (A : Accessor σ h) (s : σ) :
    AccessorInfo × σ :=
  (A.info, s)

/-- One concrete invocation of an `Accessor` operation: the operation
name together with its arguments. -/
inductive OpCall where
  | info
  | create (p : Path) (a : OpCreate)
  | read (p : Path) (a : OpRead)
  | write (p : Path) (a : OpWrite)
  | stat (p : Path) (a : OpStat)
  | delete (p : Path) (a : OpDelete)
  | list (p : Path) (a : OpList)
  | scan (p : Path) (a : OpScan)
  | batch (a : OpBatch)
  | presign (p : Path) (a : OpPresign)
  | blocking_create (p : Path) (a : OpCreate)
  | blocking_read (p : Path) (a : OpRead)
  | blocking_write (p : Path) (a : OpWrite)
  | blocking_stat (p : Path) (a : OpStat)
  | blocking_delete (p : Path) (a : OpDelete)
  | blocking_list (p : Path) (a : OpList)
  | blocking_scan (p : Path) (a : OpScan)

/-- Run one call against an accessor, keeping the successor backend
state (results and handles are dropped; an error yields no state). -/
def OpCall.run {σ : Type} {h : Handles} (A : Accessor σ h) :
    OpCall → σ → Except Error σ
  | .info, s => .ok s
  | .create p a, s => (A.create p a s).map (fun x => x.2)
  | .read p a, s => (A.read p a s).map (fun x => x.2)
  | .write p a, s => (A.write p a s).map (fun x => x.2)
  | .stat p a, s => (A.stat p a s).map (fun x => x.2)
  | .delete p a, s => (A.delete p a s).map (fun x => x.2)
  | .list p a, s => (A.list p a s).map (fun x => x.2)
  | .scan p a, s => (A.scan p a s).map (fun x => x.2)
  | .batch a, s => (A.batch a s).map (fun x => x.2)
  | .presign p a, s => (A.presign p a s).map (fun x => x.2)
  | .blocking_create p a, s => (A.blocking_create p a s).map (fun x => x.2)
  | .blocking_read p a, s => (A.blocking_read p a s).map (fun x => x.2)
  | .blocking_write p a, s => (A.blocking_write p a s).map (fun x => x.2)
  | .blocking_stat p a, s => (A.blocking_stat p a s).map (fun x => x.2)
  | .blocking_delete p a, s => (A.blocking_delete p a s).map (fun x => x.2)
  | .blocking_list p a, s => (A.blocking_list p a s).map (fun x => x.2)
  | .blocking_scan p a, s => (A.blocking_scan p a s).map (fun x => x.2)

/-- Run one call of an accessor that owns only the SECOND component of a
two-component world: two wrapping instances produced by two applications
of a layer factory each act on their own backend's state, and a call on
the second instance can touch only the second component. -/
def OpCall.runSnd {σ1 σ2 : Type} {h : Handles} (A : Accessor σ2 h)
    (c : OpCall) (w : σ1 × σ2) : Except Error (σ1 × σ2) :=
  match c.run A w.2 with
  | .ok s2 => .ok (w.1, s2)
  | .error e => .error e

section ForwardingTheorems

variable {σ : Type} {ih h : Handles} (A : Accessor σ ih)
variable (r : Path → OpRead → σ → Except Error ((RpRead × h.Reader) × σ))
variable (w : Path → OpWrite → σ → Except Error ((RpWrite × h.Writer) × σ))
variable (l : Path → OpList → σ → Except Error ((RpList × h.Pager) × σ))
variable (sc : Path → OpScan → σ → Except Error ((RpScan × h.Pager) × σ))
variable (br : Path → OpRead → σ → Except Error ((RpRead × h.BlockingReader) × σ))
variable (bw : Path → OpWrite → σ → Except Error ((RpWrite × h.BlockingWriter) × σ))
variable (bl : Path → OpList → σ → Except Error ((RpList × h.BlockingPager) × σ))
variable (bs : Path → OpScan → σ → Except Error ((RpScan × h.BlockingPager) × σ))

/-- C1: for every operation the layered-adapter trait defaults rather
than requiring an override — `metadata`/`info`, `create`, `stat`,
`delete`, `batch`, `presign`, and their existing blocking forms
`blocking_create`, `blocking_stat`, `blocking_delete` (the trait has no
blocking batch or blocking presign) — invoking the operation on the
layered accessor (built from an arbitrary inner accessor `A` and
arbitrary implementations of the eight mandatory methods, then used
through the bridge) is the very same function as invoking it directly on
`A`: same result or same error on identical arguments and identical
backend state. -/
theorem defaulted_ops_forward_to_inner :
    ((LayeredAccessor.ofInner A r w l sc br bw bl bs).toAccessor.info
        = A.info) ∧
    ((LayeredAccessor.ofInner A r w l sc br bw bl bs).toAccessor.create
        = A.create) ∧
    ((LayeredAccessor.ofInner A r w l sc br bw bl bs).toAccessor.stat
        = A.stat) ∧
    ((LayeredAccessor.ofInner A r w l sc br bw bl bs).toAccessor.delete
        = A.delete) ∧
    ((LayeredAccessor.ofInner A r w l sc br bw bl bs).toAccessor.batch
        = A.batch) ∧
    ((LayeredAccessor.ofInner A r w l sc br bw bl bs).toAccessor.presign
        = A.presign) ∧
    ((LayeredAccessor.ofInner A r w l sc br bw bl bs).toAccessor.blocking_create
        = A.blocking_create) ∧
    ((LayeredAccessor.ofInner A r w l sc br bw bl bs).toAccessor.blocking_stat
        = A.blocking_stat) ∧
    ((LayeredAccessor.ofInner A r w l sc br bw bl bs).toAccessor.blocking_delete
        = A.blocking_delete) :=
  ⟨rfl, rfl, rfl, rfl, rfl, rfl, rfl, rfl, rfl⟩

/-- C5: when the inner accessor fails on any defaulted (non-overridden)
operation, the layered accessor built through the bridge returns exactly
that error value, unchanged — the defaults never swallow, wrap,
translate, or retry errors. -/
theorem defaults_preserve_inner_errors :
    (∀ p a s e, A.create p a s = .error e →
      (LayeredAccessor.ofInner A r w l sc br bw bl bs).toAccessor.create p a s
        = .error e) ∧
    (∀ p a s e, A.stat p a s = .error e →
      (LayeredAccessor.ofInner A r w l sc br bw bl bs).toAccessor.stat p a s
        = .error e) ∧
    (∀ p a s e, A.delete p a s = .error e →
      (LayeredAccessor.ofInner A r w l sc br bw bl bs).toAccessor.delete p a s
        = .error e) ∧
    (∀ a s e, A.batch a s = .error e →
      (LayeredAccessor.ofInner A r w l sc br bw bl bs).toAccessor.batch a s
        = .error e) ∧
    (∀ p a s e, A.presign p a s = .error e →
      (LayeredAccessor.ofInner A r w l sc br bw bl bs).toAccessor.presign p a s
        = .error e) ∧
    (∀ p a s e, A.blocking_create p a s = .error e →
      (LayeredAccessor.ofInner A r w l sc br bw bl bs).toAccessor.blocking_create p a s
        = .error e) ∧
    (∀ p a s e, A.blocking_stat p a s = .error e →
      (LayeredAccessor.ofInner A r w l sc br bw bl bs).toAccessor.blocking_stat p a s
        = .error e) ∧
    (∀ p a s e, A.blocking_delete p a s = .error e →
      (LayeredAccessor.ofInner A r w l sc br bw bl bs).toAccessor.blocking_delete p a s
        = .error e) :=
  ⟨fun _ _ _ _ he => he, fun _ _ _ _ he => he, fun _ _ _ _ he => he,
   fun _ _ _ he => he, fun _ _ _ _ he => he, fun _ _ _ _ he => he,
   fun _ _ _ _ he => he, fun _ _ _ _ he => he⟩

end ForwardingTheorems

/-- C2: the bridge makes any `LayeredAccessor` an `Accessor` whose every
method routes to the layered method of the same name: `info` equals
`metadata`, and each of the sixteen remaining methods equals the layered
method it forwards to. The six resource-handle types are taken unchanged:
`toAccessor` maps `LayeredAccessor σ ih h` to `Accessor σ h`, so the
equations for the eight resource-returning methods are stated (and only
type-check) at the layered accessor's own handle bundle `h`. -/
theorem bridge_routes_to_layered_methods {σ : Type} {ih h : Handles}
    (L : LayeredAccessor σ ih h) :
    L.toAccessor.info = L.metadata ∧
    L.toAccessor.create = L.create ∧
    L.toAccessor.read = L.read ∧
    L.toAccessor.write = L.write ∧
    L.toAccessor.stat = L.stat ∧
    L.toAccessor.delete = L.delete ∧
    L.toAccessor.list = L.list ∧
    L.toAccessor.scan = L.scan ∧
    L.toAccessor.batch = L.batch ∧
    L.toAccessor.presign = L.presign ∧
    L.toAccessor.blocking_create = L.blocking_create ∧
    L.toAccessor.blocking_read = L.blocking_read ∧
    L.toAccessor.blocking_write = L.blocking_write ∧
    L.toAccessor.blocking_stat = L.blocking_stat ∧
    L.toAccessor.blocking_delete = L.blocking_delete ∧
    L.toAccessor.blocking_list = L.blocking_list ∧
    L.toAccessor.blocking_scan = L.blocking_scan :=
  ⟨rfl, rfl, rfl, rfl, rfl, rfl, rfl, rfl, rfl, rfl, rfl, rfl, rfl, rfl,
   rfl, rfl, rfl⟩

/-- C3: the `LayeredAccessor` trait gives no default body to `read`,
`write`, `list`, `scan` or their blocking forms, and gives one to every
other method — so an adapter omitting any of the eight cannot be built
(in the embedding these are the exact fields of `LayeredAccessor` that
carry no default value, so a value cannot be constructed without them;
in the source they are bare signatures, so the impl fails to compile). -/
theorem resource_ops_have_no_default :
    ∀ op : LayeredOp, op.hasDefault = false ↔
      (op = .read ∨ op = .write ∨ op = .list ∨ op = .scan ∨
       op = .blocking_read ∨ op = .blocking_write ∨
       op = .blocking_list ∨ op = .blocking_scan) := by
  intro op
  cases op <;> decide

/-- An accessor that implements nothing: every operation is left at the
interface default and so fails with an `Unsupported` error carrying the
operation's name. Used as an inner accessor all of whose calls error. -/
def unimplementedAccessor : Accessor Unit unitHandles :=
  { info := AccessorInfo.default }

/-- Witness for C5 at concrete inputs: wrapping `unimplementedAccessor`
(all of whose operations fail) in the doc example's forwarding layer and
calling each defaulted operation through the bridge returns exactly the
inner error values. -/
theorem defaults_preserve_inner_errors_witness :
    ((TraceAccessor unimplementedAccessor).toAccessor.create "p" {} ()
      = .error ⟨.Unsupported, "create"⟩) ∧
    ((TraceAccessor unimplementedAccessor).toAccessor.stat "p" {} ()
      = .error ⟨.Unsupported, "stat"⟩) ∧
    ((TraceAccessor unimplementedAccessor).toAccessor.delete "p" {} ()
      = .error ⟨.Unsupported, "delete"⟩) ∧
    ((TraceAccessor unimplementedAccessor).toAccessor.batch {} ()
      = .error ⟨.Unsupported, "batch"⟩) ∧
    ((TraceAccessor unimplementedAccessor).toAccessor.presign "p" {} ()
      = .error ⟨.Unsupported, "presign"⟩) ∧
    ((TraceAccessor unimplementedAccessor).toAccessor.blocking_create "p" {} ()
      = .error ⟨.Unsupported, "blocking_create"⟩) ∧
    ((TraceAccessor unimplementedAccessor).toAccessor.blocking_stat "p" {} ()
      = .error ⟨.Unsupported, "blocking_stat"⟩) ∧
    ((TraceAccessor unimplementedAccessor).toAccessor.blocking_delete "p" {} ()
      = .error ⟨.Unsupported, "blocking_delete"⟩) :=
  have hthm := defaults_preserve_inner_errors unimplementedAccessor
    unimplementedAccessor.read unimplementedAccessor.write
    unimplementedAccessor.list unimplementedAccessor.scan
    unimplementedAccessor.blocking_read unimplementedAccessor.blocking_write
    unimplementedAccessor.blocking_list unimplementedAccessor.blocking_scan
  ⟨hthm.1 "p" {} () _ rfl,
   hthm.2.1 "p" {} () _ rfl,
   hthm.2.2.1 "p" {} () _ rfl,
   hthm.2.2.2.1 {} () _ rfl,
   hthm.2.2.2.2.1 "p" {} () _ rfl,
   hthm.2.2.2.2.2.1 "p" {} () _ rfl,
   hthm.2.2.2.2.2.2.1 "p" {} () _ rfl,
   hthm.2.2.2.2.2.2.2 "p" {} () _ rfl⟩

section CompositionTheorems

variable {σ : Type} {h0 h1 h2 : Handles} (A : Accessor σ h0)
variable (r1 : Accessor σ h0 → Path → OpRead → σ → Except Error ((RpRead × h1.Reader) × σ))
variable (w1 : Accessor σ h0 → Path → OpWrite → σ → Except Error ((RpWrite × h1.Writer) × σ))
variable (li1 : Accessor σ h0 → Path → OpList → σ → Except Error ((RpList × h1.Pager) × σ))
variable (sc1 : Accessor σ h0 → Path → OpScan → σ → Except Error ((RpScan × h1.Pager) × σ))
variable (br1 : Accessor σ h0 → Path → OpRead → σ → Except Error ((RpRead × h1.BlockingReader) × σ))
variable (bw1 : Accessor σ h0 → Path → OpWrite → σ → Except Error ((RpWrite × h1.BlockingWriter) × σ))
variable (bl1 : Accessor σ h0 → Path → OpList → σ → Except Error ((RpList × h1.BlockingPager) × σ))
variable (bs1 : Accessor σ h0 → Path → OpScan → σ → Except Error ((RpScan × h1.BlockingPager) × σ))
variable (r2 : Accessor σ h1 → Path → OpRead → σ → Except Error ((RpRead × h2.Reader) × σ))
variable (w2 : Accessor σ h1 → Path → OpWrite → σ → Except Error ((RpWrite × h2.Writer) × σ))
variable (li2 : Accessor σ h1 → Path → OpList → σ → Except Error ((RpList × h2.Pager) × σ))
variable (sc2 : Accessor σ h1 → Path → OpScan → σ → Except Error ((RpScan × h2.Pager) × σ))
variable (br2 : Accessor σ h1 → Path → OpRead → σ → Except Error ((RpRead × h2.BlockingReader) × σ))
variable (bw2 : Accessor σ h1 → Path → OpWrite → σ → Except Error ((RpWrite × h2.BlockingWriter) × σ))
variable (bl2 : Accessor σ h1 → Path → OpList → σ → Except Error ((RpList × h2.BlockingPager) × σ))
variable (bs2 : Accessor σ h1 → Path → OpScan → σ → Except Error ((RpScan × h2.BlockingPager) × σ))

/-- Wrap `A` with the forwarding adapter of layer 1, then wrap the
result with the forwarding adapter of layer 2 — the nested composition
whose behaviour C4 compares with a single combined layer. -/
def doubleWrap : Accessor σ h2 :=
  (Layer.ofForward r2 w2 li2 sc2 br2 bw2 bl2 bs2).layer
    ((Layer.ofForward r1 w1 li1 sc1 br1 bw1 bl1 bs1).layer A)

/-- C4: wrapping `A` with layer `L1` and then `L2` (each an adapter that
overrides only the mandatory resource methods and leaves every defaulted
operation alone) is the same accessor as wrapping once with the combined
layer `L2.comp L1`, and on every non-overridden (defaulted) operation the
doubly wrapped accessor behaves exactly as `A` itself — nesting order is
invisible except through operations a layer actually intercepts. -/
theorem composition_transparent_on_defaults :
    (((Layer.ofForward r2 w2 li2 sc2 br2 bw2 bl2 bs2).comp
        (Layer.ofForward r1 w1 li1 sc1 br1 bw1 bl1 bs1)).layer A
      = doubleWrap A r1 w1 li1 sc1 br1 bw1 bl1 bs1 r2 w2 li2 sc2 br2 bw2 bl2 bs2) ∧
    (doubleWrap A r1 w1 li1 sc1 br1 bw1 bl1 bs1 r2 w2 li2 sc2 br2 bw2 bl2 bs2).info
      = A.info ∧
    (doubleWrap A r1 w1 li1 sc1 br1 bw1 bl1 bs1 r2 w2 li2 sc2 br2 bw2 bl2 bs2).create
      = A.create ∧
    (doubleWrap A r1 w1 li1 sc1 br1 bw1 bl1 bs1 r2 w2 li2 sc2 br2 bw2 bl2 bs2).stat
      = A.stat ∧
    (doubleWrap A r1 w1 li1 sc1 br1 bw1 bl1 bs1 r2 w2 li2 sc2 br2 bw2 bl2 bs2).delete
      = A.delete ∧
    (doubleWrap A r1 w1 li1 sc1 br1 bw1 bl1 bs1 r2 w2 li2 sc2 br2 bw2 bl2 bs2).batch
      = A.batch ∧
    (doubleWrap A r1 w1 li1 sc1 br1 bw1 bl1 bs1 r2 w2 li2 sc2 br2 bw2 bl2 bs2).presign
      = A.presign ∧
    (doubleWrap A r1 w1 li1 sc1 br1 bw1 bl1 bs1 r2 w2 li2 sc2 br2 bw2 bl2 bs2).blocking_create
      = A.blocking_create ∧
    (doubleWrap A r1 w1 li1 sc1 br1 bw1 bl1 bs1 r2 w2 li2 sc2 br2 bw2 bl2 bs2).blocking_stat
      = A.blocking_stat ∧
    (doubleWrap A r1 w1 li1 sc1 br1 bw1 bl1 bs1 r2 w2 li2 sc2 br2 bw2 bl2 bs2).blocking_delete
      = A.blocking_delete :=
  ⟨rfl, rfl, rfl, rfl, rfl, rfl, rfl, rfl, rfl, rfl⟩

end CompositionTheorems

/-- C6: resource-handle types are fixed at composition time: an accessor
declares exactly one handle type per kind (the six fields of its
`Handles` bundle), the bridge takes that bundle unchanged — `toAccessor`
sends `LayeredAccessor σ ih h` to `Accessor σ h`, and each
resource-returning method is forwarded as the very same function, so the
handle any call returns is the one fixed by the layered accessor's
declaration, with no per-call choice — and each resource-returning
method involves exactly the one handle kind its signature names. -/
theorem handle_types_fixed_at_composition {σ : Type} {ih h : Handles}
    (L : LayeredAccessor σ ih h) :
    (L.toAccessor.read = L.read ∧
     L.toAccessor.write = L.write ∧
     L.toAccessor.list = L.list ∧
     L.toAccessor.scan = L.scan ∧
     L.toAccessor.blocking_read = L.blocking_read ∧
     L.toAccessor.blocking_write = L.blocking_write ∧
     L.toAccessor.blocking_list = L.blocking_list ∧
     L.toAccessor.blocking_scan = L.blocking_scan) ∧
    (∀ op : AccessorOp,
      (op.handleKind = some HandleKind.Reader ↔ op = .read) ∧
      (op.handleKind = some HandleKind.BlockingReader ↔ op = .blocking_read) ∧
      (op.handleKind = some HandleKind.Writer ↔ op = .write) ∧
      (op.handleKind = some HandleKind.BlockingWriter ↔ op = .blocking_write) ∧
      (op.handleKind = some HandleKind.Pager ↔ (op = .list ∨ op = .scan)) ∧
      (op.handleKind = some HandleKind.BlockingPager ↔
        (op = .blocking_list ∨ op = .blocking_scan))) := by
  refine ⟨⟨rfl, rfl, rfl, rfl, rfl, rfl, rfl, rfl⟩, ?_⟩
  intro op
  cases op <;> decide

/-- C7: info is idempotent: invoking `info` neither consumes nor changes
backend state, so consecutive calls with no intervening mutating
operations leave the state untouched and return identical `AccessorInfo`
values, on every accessor (layered accessors included, through the
bridge). -/
theorem info_idempotent {σ : Type} {h : Handles}
    (A : Accessor σ h) (s : σ) :
    (callInfo A s).2 = s ∧
    (callInfo A ((callInfo A s).2)).1 = (callInfo A s).1 :=
  ⟨rfl, rfl⟩

/-- C8: two wrapping instances obtained by applying layer factories to
two different inner accessors are independent and non-interfering: on a
two-component world where each instance owns its own backend's state
component, any operation performed on the second instance leaves the
first component untouched and leaves the outcome of every operation of
the first instance unchanged. The mechanism introduces no implicit
shared mutable state; state a layer author deliberately shares (like the
bundled test layer's `deleted` flag) is an explicit state component. -/
theorem layer_instances_noninterfering {σ1 σ2 : Type}
    {ih1 oh1 ih2 oh2 : Handles}
    (l1 : Layer σ1 ih1 oh1) (l2 : Layer σ2 ih2 oh2)
    (A : Accessor σ1 ih1) (B : Accessor σ2 ih2)
    (c1 c2 : OpCall) (w w' : σ1 × σ2)
    (hrun : OpCall.runSnd (l2.layer B) c2 w = .ok w') :
    w'.1 = w.1 ∧
    c1.run (l1.layer A) w'.1 = c1.run (l1.layer A) w.1 := by
  have h1 : w'.1 = w.1 := by
    unfold OpCall.runSnd at hrun
    cases hm : c2.run (l2.layer B) w.2 with
    | ok s2 =>
      rw [hm] at hrun
      cases hrun
      rfl
    | error e =>
      rw [hm] at hrun
      cases hrun
  exact ⟨h1, by rw [h1]⟩

/-- Witness for C8 at concrete inputs: wrap the in-memory backend twice
with the doc example's forwarding layer; deleting path "a" on the second
instance changes only the second state component, and a `stat` on the
first instance returns the same outcome before and after. -/
theorem layer_instances_noninterfering_witness :
    (OpCall.runSnd ((TraceLayer MemState memoryHandles).layer Memory)
        (OpCall.delete "a" {})
        (([("b", "y")] : MemState), ([("a", "x")] : MemState))
      = .ok (([("b", "y")] : MemState), ([] : MemState))) ∧
    ((([("b", "y")] : MemState), ([] : MemState)).1
      = (([("b", "y")] : MemState), ([("a", "x")] : MemState)).1 ∧
     (OpCall.stat "b" {}).run ((TraceLayer MemState memoryHandles).layer Memory)
        (([("b", "y")] : MemState), ([] : MemState)).1
      = (OpCall.stat "b" {}).run ((TraceLayer MemState memoryHandles).layer Memory)
        (([("b", "y")] : MemState), ([("a", "x")] : MemState)).1) :=
  ⟨rfl,
   layer_instances_noninterfering
     (TraceLayer MemState memoryHandles) (TraceLayer MemState memoryHandles)
     Memory Memory
     (OpCall.stat "b" {}) (OpCall.delete "a" {})
     (([("b", "y")] : MemState), ([("a", "x")] : MemState))
     (([("b", "y")] : MemState), ([] : MemState))
     rfl⟩

/-- C9: presign is synchronous-only: in the layered-adapter trait and in
the bridge, `presign` is the unique method whose result is a presign
result, it is not declared `async` in either (so it runs to completion
with no suspension, unlike the eight operations that are), the bridge
runs it by direct forwarding to the layered method, and its result type
carries exactly a URL plus an expiry. -/
theorem presign_synchronous_only {σ : Type} {ih h : Handles}
    (L : LayeredAccessor σ ih h) :
    LayeredOp.isAsync .presign = false ∧
    AccessorOp.isAsync .presign = false ∧
    (∀ op : LayeredOp, op.returnsPresign = true → op = .presign) ∧
    (∀ op : AccessorOp, op.returnsPresign = true → op = .presign) ∧
    L.toAccessor.presign = L.presign ∧
    (∀ u e, (RpPresign.mk u e).url = u ∧ (RpPresign.mk u e).expiry = e) := by
  refine ⟨rfl, rfl, ?_, ?_, rfl, fun u e => ⟨rfl, rfl⟩⟩
  · intro op
    cases op <;> decide
  · intro op
    cases op <;> decide

/-- Witness for C9 at a concrete input: the presign-uniqueness
implications discharged at `presign` itself, and the bridge equation at
the doc example's forwarding adapter over the in-memory backend. -/
theorem presign_synchronous_only_witness :
    (LayeredOp.returnsPresign LayeredOp.presign = true ∧
     LayeredOp.presign = LayeredOp.presign) ∧
    (AccessorOp.returnsPresign AccessorOp.presign = true ∧
     AccessorOp.presign = AccessorOp.presign) ∧
    (TraceAccessor Memory).toAccessor.presign = (TraceAccessor Memory).presign :=
  have hthm := presign_synchronous_only (TraceAccessor Memory)
  ⟨⟨rfl, hthm.2.2.1 LayeredOp.presign rfl⟩,
   ⟨rfl, hthm.2.2.2.1 AccessorOp.presign rfl⟩,
   hthm.2.2.2.2.1⟩

/-- C10: in the bundled test, the layer's override of `delete` runs
alone: wrapping the in-memory backend with the `Test` layer and calling
`delete("xxxxx")` on the composed accessor succeeds with the default
delete result, sets the layer's own `deleted` flag, and leaves the inner
in-memory backend's state exactly as it was, for every initial backend
state — the inner accessor is never invoked. -/
theorem test_layer_delete_overrides_inner (m : MemState) :
    (Test.layer { inner := none } Memory).accessor.delete "xxxxx" {}
        { deleted := false, innerState := m }
      = .ok (RpDelete.default, { deleted := true, innerState := m }) :=
  rfl

end Opendal
